import Mathlib

/-!
Shallow embedding of the WOPR OpenAI TTS voice plugin
(wopr-network/wopr-plugin-voice-openai-tts).

The embedded code is the `OpenAITTSProvider` class and the plugin `init`
boundary, as written in `src/index.ts` and its duplicate
`src/unnamed/part_004` (the variant exercised by the vitest suite in
`src/unnamed/part_003`; the two copies agree on every function modelled
here except that only `part_004` attaches the 30-second abort signal to
the synthesize fetch).

Modelling conventions:
- TypeScript numbers are modelled as `ℚ` (speed) and `Nat`/`ℤ`
  (statuses, byte counts, durations); `Math.round` is Mathlib `round`
  (round half up, matching `Math.round` on nonnegative values).
- The JavaScript `a || b` fallback on strings and numbers is modelled by
  explicit functions (`jsOrString`, `jsOrRat`, `effectiveInstructions`)
  that treat the falsy values `""` and `0` as absent, exactly as `||`
  does.
- `fetch` is external: a synthesize or healthCheck call receives the
  outcome of its single outbound request as an explicit
  `Except TransportError HttpResponse` value; the request itself is the
  pure value `synthesizeRequest` / `healthCheckRequest`, so the
  one-call-per-invocation structure of the source is preserved by
  construction (`synthesizeWith` applies the transport exactly once).
- Thrown `Error` values become `Except.error` constructors carrying the
  same data the source interpolates into the message; the message
  template itself is reproduced by `validationMessage` /
  `synthFailMessage`, with Lean `toString` standing in for JavaScript
  number-to-string rendering.
-/

namespace WoprOpenAITTS

/-- Voice catalog entry, from the `Voice` interface (id, display name,
optional language, gender and description). -/
structure Voice where
  id : String
  name : String
  language : Option String := none
  gender : Option String := none
  description : Option String := none
deriving Repr, DecidableEq

/-- Plugin configuration, from the `OpenAITTSConfig` interface: every
field is optional in the source, so each is an `Option` here. -/
structure OpenAITTSConfig where
  apiKey : Option String := none
  model : Option String := none
  voice : Option String := none
  speed : Option ℚ := none
  instructions : Option String := none
deriving Repr, DecidableEq

/-- Built-in defaults, from `DEFAULT_CONFIG` in the source
(model gpt-4o-mini-tts, voice coral, speed 1.0; apiKey and instructions
left undefined). -/
def DEFAULT_CONFIG : OpenAITTSConfig :=
  { apiKey := none
    model := some "gpt-4o-mini-tts"
    voice := some "coral"
    speed := some 1
    instructions := none }

/-- The static 13-entry voice catalog, from `OPENAI_VOICES`. -/
def OPENAI_VOICES : List Voice :=
  [ { id := "alloy", name := "Alloy", gender := some "neutral",
      description := some "Neutral, balanced" },
    { id := "ash", name := "Ash", gender := some "male",
      description := some "Clear, professional" },
    { id := "ballad", name := "Ballad", gender := some "female",
      description := some "Warm, melodic" },
    { id := "coral", name := "Coral", gender := some "female",
      description := some "Natural, friendly" },
    { id := "echo", name := "Echo", gender := some "male",
      description := some "Deep, authoritative" },
    { id := "fable", name := "Fable", gender := some "neutral",
      description := some "Storytelling" },
    { id := "nova", name := "Nova", gender := some "female",
      description := some "Energetic, youthful" },
    { id := "onyx", name := "Onyx", gender := some "male",
      description := some "Deep, resonant" },
    { id := "sage", name := "Sage", gender := some "neutral",
      description := some "Calm, wise" },
    { id := "shimmer", name := "Shimmer", gender := some "female",
      description := some "Bright, cheerful" },
    { id := "verse", name := "Verse", gender := some "neutral",
      description := some "Expressive, dynamic" },
    { id := "marin", name := "Marin", gender := some "female",
      description := some "Best quality female" },
    { id := "cedar", name := "Cedar", gender := some "male",
      description := some "Best quality male" } ]

/-- JavaScript `a || b` on an optional string against a string default:
`undefined` and the empty string are falsy and fall through to `b`. -/
def jsOrString : Option String → String → String
  | some s, b => if s = "" then b else s
  | none, b => b

/-- JavaScript `a || b` on an optional number against a numeric default:
`undefined` and `0` are falsy and fall through to `b`. -/
def jsOrRat : Option ℚ → ℚ → ℚ
  | some x, b => if x = 0 then b else x
  | none, b => b

/-- Provider state after construction, from the private fields of
`OpenAITTSProvider` (`apiKey`, `model`, `defaultVoice`, `speed`,
`instructions`). -/
structure OpenAITTSProvider where
  apiKey : String
  model : String
  defaultVoice : String
  speed : ℚ
  instructions : Option String
deriving Repr, DecidableEq

/-- The `OpenAITTSProvider` constructor: each field is
`config.x || fallback`, with the api key falling back to the
`OPENAI_API_KEY` environment variable (modelled as `envApiKey`) and then
to the empty string, and `instructions` copied verbatim. -/
def mkProvider (config : OpenAITTSConfig) (envApiKey : Option String) :
    OpenAITTSProvider :=
  { apiKey := jsOrString config.apiKey (jsOrString envApiKey "")
    model := jsOrString config.model "gpt-4o-mini-tts"
    defaultVoice := jsOrString config.voice "coral"
    speed := jsOrRat config.speed 1
    instructions := config.instructions }

/-- Structured form of the errors thrown by `validateConfig`, each
carrying the data the source interpolates into its message. -/
inductive ValidationError where
  | missingKey : ValidationError
  | invalidVoice (voice : String) : ValidationError
  | invalidSpeed (speed : ℚ) : ValidationError
  | invalidModel (model : String) : ValidationError
deriving Repr, DecidableEq

/-- The valid voice ids, `OPENAI_VOICES.map((v) => v.id)`. -/
def validVoices : List String := OPENAI_VOICES.map Voice.id

/-- The valid models, from the literal list in `validateConfig`. -/
def validModels : List String := ["gpt-4o-mini-tts", "tts-1", "tts-1-hd"]

/-- The `validateConfig` method: checks the api key, the default voice
against the catalog, the speed range and the model, in source order,
reporting the first failure. -/
def validateConfig (p : OpenAITTSProvider) : Except ValidationError Unit :=
  if p.apiKey = "" then .error .missingKey
  else if validVoices.contains p.defaultVoice = false then
    .error (.invalidVoice p.defaultVoice)
  else if p.speed < 0.25 ∨ p.speed > 4.0 then
    .error (.invalidSpeed p.speed)
  else if validModels.contains p.model = false then
    .error (.invalidModel p.model)
  else .ok ()

/-- Message rendering for validation errors, reproducing the template
strings of the source (Lean `toString` stands in for JavaScript number
rendering in the speed message). -/
def validationMessage : ValidationError → String
  | .missingKey => "OPENAI_API_KEY required for OpenAI TTS"
  | .invalidVoice v =>
      "Invalid voice: " ++ v ++ ". Valid: " ++
        String.intercalate ", " validVoices
  | .invalidSpeed s =>
      "Speed must be between 0.25 and 4.0, got: " ++ toString s
  | .invalidModel m =>
      "Invalid model: " ++ m ++ ". Valid: " ++
        String.intercalate ", " validModels

/-- Per-call synthesis options, from the `TTSOptions` interface. -/
structure TTSOptions where
  voice : Option String := none
  speed : Option ℚ := none
  pitch : Option ℚ := none
  format : Option String := none
  sampleRate : Option Nat := none
  instructions : Option String := none
deriving Repr, DecidableEq

/-- The resolution `options?.instructions || this.instructions` from
`synthesize`: a falsy (absent or empty) per-call value falls through to
the stored instructions, which may themselves be absent. -/
def effectiveInstructions (optInstr storedInstr : Option String) :
    Option String :=
  match optInstr with
  | some s => if s = "" then storedInstr else some s
  | none => storedInstr

/-- Truthiness of an optional string, as JavaScript tests it: present
and non-empty. -/
def strTruthy : Option String → Bool
  | some s => decide (s ≠ "")
  | none => false

/-- The outbound JSON body built by `synthesize`:
`{model, input, voice, response_format, speed, instructions?}`, where
`instructions := none` models the field being absent. -/
structure SpeechBody where
  model : String
  input : String
  voice : String
  response_format : String
  speed : ℚ
  instructions : Option String
deriving Repr, DecidableEq

/-- The body-building prefix of `synthesize`: voice and speed resolve
per-call options over stored defaults with `||`, the encoding is fixed
to raw PCM, and instructions are attached only when the effective
instructions are truthy and the model is exactly gpt-4o-mini-tts. -/
def buildBody (p : OpenAITTSProvider) (text : String) (o : TTSOptions) :
    SpeechBody :=
  let voice := jsOrString o.voice p.defaultVoice
  let speed := jsOrRat o.speed p.speed
  let effInstr := effectiveInstructions o.instructions p.instructions
  { model := p.model
    input := text
    voice := voice
    response_format := "pcm"
    speed := speed
    instructions :=
      if strTruthy effInstr && (p.model == "gpt-4o-mini-tts") then effInstr
      else none }

/-- An HTTP response as `synthesize` and `healthCheck` observe it:
a status code, the text body read on failure, and the binary payload
read on success. `fetch`'s `response.ok` is derived from the status. -/
structure HttpResponse where
  status : Nat
  errText : String := ""
  payload : List Nat := []
deriving Repr, DecidableEq

/-- The WHATWG `Response.ok` flag: status in the inclusive range
200..299. -/
def HttpResponse.ok (r : HttpResponse) : Bool :=
  200 ≤ r.status && r.status ≤ 299

/-- A transport-level failure of the outbound call (network error or
abort-signal timeout), thrown by `fetch` rather than reported as a
response. -/
inductive TransportError where
  | networkError : TransportError
  | timedOut : TransportError
deriving Repr, DecidableEq

/-- Outcome of one outbound `fetch`: either a response or a thrown
transport error. -/
abbrev FetchOutcome := Except TransportError HttpResponse

/-- An outbound HTTP request as the provider assembles it: URL, method,
authorization and content-type headers, optional JSON body, and the
optional abort-signal timeout in milliseconds. -/
structure HttpRequest where
  url : String
  method : String
  authorization : String
  contentType : Option String
  body : Option SpeechBody
  timeoutMs : Option Nat
deriving Repr, DecidableEq

/-- The single outbound request a `synthesize` call issues: POST to the
speech endpoint, bearer authorization, JSON content type, the built
body, and the 30-second abort signal (`AbortSignal.timeout(30000)` in
`src/unnamed/part_004`; the stale `src/index.ts` duplicate omits the
signal). -/
def synthesizeRequest (p : OpenAITTSProvider) (text : String)
    (o : TTSOptions) : HttpRequest :=
  { url := "https://api.openai.com/v1/audio/speech"
    method := "POST"
    authorization := "Bearer " ++ p.apiKey
    contentType := some "application/json"
    body := some (buildBody p text o)
    timeoutMs := some 30000 }

/-- The single outbound request a `healthCheck` call issues: GET to the
models-listing endpoint with bearer authorization and a 5-second abort
signal. -/
def healthCheckRequest (p : OpenAITTSProvider) : HttpRequest :=
  { url := "https://api.openai.com/v1/models"
    method := "GET"
    authorization := "Bearer " ++ p.apiKey
    contentType := none
    body := none
    timeoutMs := some 5000 }

/-- Errors a `synthesize` call can surface: the thrown
`OpenAI TTS failed` error on a non-ok response, or a propagated
transport error. -/
inductive SynthesisError where
  | httpFailure (status : Nat) (errText : String) : SynthesisError
  | transport (e : TransportError) : SynthesisError
deriving Repr, DecidableEq

/-- Message of the error thrown on a non-ok response, reproducing the
source template `OpenAI TTS failed: status - errorText`. -/
def synthFailMessage (status : Nat) (errText : String) : String :=
  "OpenAI TTS failed: " ++ toString status ++ " - " ++ errText

/-- The synthesis result, from the `TTSSynthesisResult` interface. -/
structure TTSSynthesisResult where
  audio : List Nat
  format : String
  sampleRate : Nat
  durationMs : ℤ
deriving Repr, DecidableEq

/-- The duration computation of `synthesize`:
`samples = byteLength / 2` (JavaScript float division, exact on `ℚ`),
`durationMs = Math.round((samples / 24000) * 1000)`. -/
def durationMsOf (byteLength : Nat) : ℤ :=
  let sampleRate : ℚ := 24000
  let bytesPerSample : ℚ := 2
  let samples : ℚ := (byteLength : ℚ) / bytesPerSample
  round ((samples / sampleRate) * 1000)

/-- The response-handling suffix of `synthesize`, applied to the outcome
of its one outbound request: a thrown transport error propagates, a
non-ok response raises the `OpenAI TTS failed` error before any
decoding, and an ok response is decoded into a PCM result with the
computed duration. -/
def synthesize (p : OpenAITTSProvider) (text : String) (o : TTSOptions)
    (outcome : FetchOutcome) : Except SynthesisError TTSSynthesisResult :=
  match outcome with
  | .error e => .error (.transport e)
  | .ok r =>
      if r.ok = false then .error (.httpFailure r.status r.errText)
      else
        .ok { audio := r.payload
              format := "pcm_s16le"
              sampleRate := 24000
              durationMs := durationMsOf r.payload.length }

/-- A full `synthesize` invocation against a transport: the transport is
applied exactly once, to exactly `synthesizeRequest`. -/
def synthesizeWith (transport : HttpRequest → FetchOutcome)
    (p : OpenAITTSProvider) (text : String) (o : TTSOptions) :
    Except SynthesisError TTSSynthesisResult :=
  synthesize p text o (transport (synthesizeRequest p text o))

/-- The `healthCheck` method, applied to the outcome of its one outbound
request: `response.ok` on a response, and `false` for every thrown
failure (the catch-all in the source); it never raises, which the `Bool`
return type records. -/
def healthCheck (outcome : FetchOutcome) : Bool :=
  match outcome with
  | .ok r => r.ok
  | .error _ => false

/-- Outcome of the plugin `init` boundary: either the provider was
registered (with the info log line), or validation failed and only an
error line was logged. -/
inductive InitOutcome where
  | registered (p : OpenAITTSProvider) (logInfo : String) : InitOutcome
  | notRegistered (logError : String) : InitOutcome
deriving Repr, DecidableEq

/-- The plugin `init` function: builds the provider from the host config
(plus environment fallback), validates it, and either registers it or
catches the validation error and logs
`Failed to register OpenAI TTS: <err>` (JavaScript stringifies a thrown
`Error` as `Error: <message>`). -/
def init (config : OpenAITTSConfig) (envApiKey : Option String) :
    InitOutcome :=
  let p := mkProvider config envApiKey
  match validateConfig p with
  | .ok _ =>
      .registered p
        ("OpenAI TTS provider registered (model: " ++ p.model ++
          ", voice: " ++ p.defaultVoice ++ ")")
  | .error e =>
      .notRegistered
        ("Failed to register OpenAI TTS: Error: " ++ validationMessage e)

/-- Sample provider used by concrete witnesses: the test-suite config
`{ apiKey: "sk-test-key" }` with no environment variable set. -/
def sampleProvider : OpenAITTSProvider :=
  mkProvider { apiKey := some "sk-test-key" } none

/-- Concrete successful response with a 48000-byte raw PCM payload, as
in the test-suite synthesize test. -/
def resp48000 : HttpResponse :=
  { status := 200, payload := List.replicate 48000 0 }

/-- Concrete successful response with an odd, 5-byte payload. -/
def respOdd : HttpResponse :=
  { status := 200, payload := [0, 0, 0, 0, 0] }

/-- Concrete failing response, as in the test-suite 401 test. -/
def resp401 : HttpResponse :=
  { status := 401, errText := "Unauthorized" }

/-- Concrete provider sitting on the lower speed boundary 0.25. -/
def boundaryProvider : OpenAITTSProvider :=
  { apiKey := "sk-test-key", model := "tts-1", defaultVoice := "coral",
    speed := 0.25, instructions := none }

/-- Concrete per-call options supplying the falsy values empty-string
voice and zero speed. -/
def falsyOptions : TTSOptions :=
  { voice := some "", speed := some 0 }

/-- Concrete per-call options supplying truthy overrides. -/
def overrideOptions : TTSOptions :=
  { voice := some "ash", speed := some 2 }

/-- Concrete provider with stored style instructions. -/
def instrProvider : OpenAITTSProvider :=
  { apiKey := "sk-test-key", model := "gpt-4o-mini-tts",
    defaultVoice := "coral", speed := 1, instructions := some "Speak calmly" }

/-- Concrete per-call options that are all falsy, including an
empty-string instructions override. -/
def emptyInstrOptions : TTSOptions :=
  { voice := some "", speed := some 0, instructions := some "" }

/-- Concrete provider configured with model tts-1 and stored
instructions. -/
def tts1Provider : OpenAITTSProvider :=
  mkProvider
    { apiKey := some "sk-test-key", model := some "tts-1",
      instructions := some "Speak calmly" }
    none

/-- C1: for every synthesize call whose HTTP response is successful with
a raw PCM payload of byteLength bytes, the returned durationMs equals
round((byteLength / 2 / 24000) * 1000); in particular a 48000-byte
payload yields durationMs = 1000. -/
theorem synthesize_durationMs_formula (p : OpenAITTSProvider)
    (text : String) (o : TTSOptions) (r : HttpResponse)
    (h : r.ok = true) :
    ∃ res, synthesize p text o (.ok r) = .ok res ∧
      res.durationMs =
        round ((((r.payload.length : ℚ) / 2) / 24000) * 1000) ∧
      (r.payload.length = 48000 → res.durationMs = 1000) := by
  refine ⟨{ audio := r.payload, format := "pcm_s16le", sampleRate := 24000,
            durationMs := durationMsOf r.payload.length }, ?_, ?_, ?_⟩
  · simp [synthesize, h]
  · simp [durationMsOf]
  · intro h48
    simp only [h48]
    norm_num [durationMsOf, round_eq]

/-- Witness for C1 at the 48000-byte test payload. -/
theorem synthesize_durationMs_formula_witness :
    resp48000.ok = true ∧
    ∃ res, synthesize sampleProvider "Hello world" {} (.ok resp48000) =
        .ok res ∧
      res.durationMs =
        round ((((resp48000.payload.length : ℚ) / 2) / 24000) * 1000) ∧
      (resp48000.payload.length = 48000 → res.durationMs = 1000) :=
  ⟨rfl,
    synthesize_durationMs_formula sampleProvider "Hello world" {}
      resp48000 rfl⟩

/-- C2: for a provider whose api key, voice and model pass their own
checks, validateConfig succeeds exactly when the speed lies in the
inclusive interval [0.25, 4.0] (so the boundary values 0.25 and 4.0 are
accepted), and any speed outside the interval fails with the
invalid-speed error whose message ends with the offending value. -/
theorem validateConfig_speed_range (p : OpenAITTSProvider)
    (hk : p.apiKey ≠ "")
    (hv : validVoices.contains p.defaultVoice = true)
    (hm : validModels.contains p.model = true) :
    (validateConfig p = .ok () ↔ 0.25 ≤ p.speed ∧ p.speed ≤ 4.0) ∧
    (p.speed < 0.25 ∨ p.speed > 4.0 →
      validateConfig p = .error (.invalidSpeed p.speed) ∧
      ∃ a, validationMessage (.invalidSpeed p.speed) =
        a ++ toString p.speed) := by
  have hv' : ¬ (validVoices.contains p.defaultVoice = false) := by
    rw [hv]; simp
  have hm' : ¬ (validModels.contains p.model = false) := by
    rw [hm]; simp
  unfold validateConfig
  rw [if_neg hk, if_neg hv']
  by_cases hs : p.speed < 0.25 ∨ p.speed > 4.0
  · rw [if_pos hs]
    refine ⟨⟨fun h => by simp at h, fun h => ?_⟩,
      fun _ => ⟨rfl, "Speed must be between 0.25 and 4.0, got: ", rfl⟩⟩
    exfalso
    rcases hs with h1 | h1
    · exact absurd h.1 (not_le.mpr h1)
    · exact absurd h.2 (not_le.mpr h1)
  · rw [if_neg hs, if_neg hm']
    push_neg at hs
    exact ⟨⟨fun _ => ⟨hs.1, hs.2⟩, fun _ => rfl⟩,
      fun h => absurd h (by push_neg; exact hs)⟩

/-- Witness for C2 at a provider sitting on the boundary speed 0.25. -/
theorem validateConfig_speed_range_witness :
    boundaryProvider.apiKey ≠ "" ∧
    validVoices.contains boundaryProvider.defaultVoice = true ∧
    validModels.contains boundaryProvider.model = true ∧
    ((validateConfig boundaryProvider = .ok () ↔
        0.25 ≤ boundaryProvider.speed ∧ boundaryProvider.speed ≤ 4.0) ∧
      (boundaryProvider.speed < 0.25 ∨ boundaryProvider.speed > 4.0 →
        validateConfig boundaryProvider =
          .error (.invalidSpeed boundaryProvider.speed) ∧
        ∃ a, validationMessage (.invalidSpeed boundaryProvider.speed) =
          a ++ toString boundaryProvider.speed)) :=
  ⟨by decide, by decide, by decide,
    validateConfig_speed_range boundaryProvider (by decide) (by decide)
      (by decide)⟩

/-- C3: the outbound body carries an instructions field exactly when the
resolved instructions are non-empty and the active model is exactly
gpt-4o-mini-tts; under any other model, for example tts-1, the field is
omitted (and body building is total, so no error is raised). -/
theorem buildBody_instructions_iff (p : OpenAITTSProvider)
    (text : String) (o : TTSOptions) :
    ((buildBody p text o).instructions ≠ none ↔
      (∃ s, effectiveInstructions o.instructions p.instructions = some s ∧
        s ≠ "") ∧ p.model = "gpt-4o-mini-tts") ∧
    (p.model = "tts-1" → (buildBody p text o).instructions = none) := by
  constructor
  · by_cases hmod : p.model = "gpt-4o-mini-tts"
    · cases he : effectiveInstructions o.instructions p.instructions with
      | none => simp [buildBody, he, strTruthy, hmod]
      | some s =>
          by_cases hstr : s = ""
          · simp [buildBody, he, strTruthy, hmod, hstr]
          · simp [buildBody, he, strTruthy, hmod, hstr]
    · simp [buildBody, strTruthy, hmod]
  · intro hmod
    simp [buildBody, hmod]

/-- Witness for C3 at model tts-1 with non-empty stored instructions. -/
theorem buildBody_instructions_iff_witness :
    tts1Provider.model = "tts-1" ∧
    (buildBody tts1Provider "hi" {}).instructions = none :=
  ⟨rfl, (buildBody_instructions_iff tts1Provider "hi" {}).2 rfl⟩

/-- C4 counterexample: a caller-supplied empty-string voice and zero
speed do NOT end up in the request body; the body falls back to the
stored defaults (coral, 1), so the claim that supplied per-call values
always appear in the body fails at this input. -/
theorem synthesize_option_override_counterexample :
    falsyOptions.voice = some "" ∧ falsyOptions.speed = some 0 ∧
    (buildBody sampleProvider "hi" falsyOptions).voice ≠ "" ∧
    (buildBody sampleProvider "hi" falsyOptions).speed ≠ 0 ∧
    (buildBody sampleProvider "hi" falsyOptions).voice =
      sampleProvider.defaultVoice ∧
    (buildBody sampleProvider "hi" falsyOptions).speed =
      sampleProvider.speed := by
  refine ⟨rfl, rfl, ?_, ?_, rfl, rfl⟩ <;> decide

/-- C4 amended: the body's voice and speed equal the per-call option
values when the caller supplies truthy ones (a non-empty voice, a
nonzero speed), and equal the stored defaults when the caller omits
them. -/
theorem synthesize_option_override_amended (p : OpenAITTSProvider)
    (text : String) (o : TTSOptions) :
    (∀ v, o.voice = some v → v ≠ "" → (buildBody p text o).voice = v) ∧
    (o.voice = none → (buildBody p text o).voice = p.defaultVoice) ∧
    (∀ s, o.speed = some s → s ≠ 0 → (buildBody p text o).speed = s) ∧
    (o.speed = none → (buildBody p text o).speed = p.speed) := by
  refine ⟨fun v hv hne => ?_, fun hv => ?_, fun s hs hne => ?_,
    fun hs => ?_⟩
  · simp [buildBody, jsOrString, hv, hne]
  · simp [buildBody, jsOrString, hv]
  · simp [buildBody, jsOrRat, hs, hne]
  · simp [buildBody, jsOrRat, hs]

/-- Witness for the amended C4 at truthy overrides voice ash and
speed 2. -/
theorem synthesize_option_override_amended_witness :
    overrideOptions.voice = some "ash" ∧ ("ash" : String) ≠ "" ∧
    (buildBody sampleProvider "hi" overrideOptions).voice = "ash" ∧
    overrideOptions.speed = some 2 ∧ (2 : ℚ) ≠ 0 ∧
    (buildBody sampleProvider "hi" overrideOptions).speed = 2 :=
  ⟨rfl, by decide,
    (synthesize_option_override_amended sampleProvider "hi"
      overrideOptions).1 "ash" rfl (by decide),
    rfl, by decide,
    (synthesize_option_override_amended sampleProvider "hi"
      overrideOptions).2.2.1 2 rfl (by decide)⟩

/-- C5: on a non-success HTTP response, synthesize fails (before any
decoding) with the error carrying the status code and the server error
text, and the rendered message contains the literal status code right
after the fixed failure text. -/
theorem synthesize_http_error (p : OpenAITTSProvider) (text : String)
    (o : TTSOptions) (r : HttpResponse) (h : r.ok = false) :
    synthesize p text o (.ok r) =
      .error (.httpFailure r.status r.errText) ∧
    ∃ b, synthFailMessage r.status r.errText =
      ("OpenAI TTS failed: " ++ toString r.status) ++ b := by
  refine ⟨by simp [synthesize, h], " - " ++ r.errText, ?_⟩
  simp [synthFailMessage, String.append_assoc]

/-- Witness for C5 at the 401 Unauthorized response of the test
suite. -/
theorem synthesize_http_error_witness :
    resp401.ok = false ∧
    (synthesize sampleProvider "Hello" {} (.ok resp401) =
      .error (.httpFailure resp401.status resp401.errText) ∧
    ∃ b, synthFailMessage resp401.status resp401.errText =
      ("OpenAI TTS failed: " ++ toString resp401.status) ++ b) :=
  ⟨rfl, synthesize_http_error sampleProvider "Hello" {} resp401 rfl⟩

/-- C6: healthCheck is total over every outcome of its request (success
response, failure response, network error, timeout) — it never raises —
and returns true exactly when the outcome is a response with a success
status. -/
theorem healthCheck_true_iff (outcome : FetchOutcome) :
    healthCheck outcome = true ↔
      ∃ r, outcome = .ok r ∧ r.ok = true := by
  cases outcome with
  | error e => simp [healthCheck]
  | ok r => simp [healthCheck]

/-- C7: whenever validation of the constructed provider fails, init
catches the error, logs the failed-to-register line and does not
register the provider; and when the merged configuration has no
credential at all, the logged line contains the word required. -/
theorem init_validation_failure (config : OpenAITTSConfig)
    (envApiKey : Option String) :
    (∀ e, validateConfig (mkProvider config envApiKey) = .error e →
      init config envApiKey =
        .notRegistered
          ("Failed to register OpenAI TTS: Error: " ++
            validationMessage e)) ∧
    ((mkProvider config envApiKey).apiKey = "" →
      ∃ a b, init config envApiKey =
        .notRegistered (a ++ "required" ++ b)) := by
  constructor
  · intro e he
    simp [init, he]
  · intro hk
    have he : validateConfig (mkProvider config envApiKey) =
        .error .missingKey := by
      simp [validateConfig, hk]
    refine ⟨"Failed to register OpenAI TTS: Error: OPENAI_API_KEY ",
      " for OpenAI TTS", ?_⟩
    simp [init, he, validationMessage]

/-- Witness for C7 at the empty configuration with no environment
fallback. -/
theorem init_validation_failure_witness :
    (mkProvider {} none).apiKey = "" ∧
    ∃ a b, init {} none = .notRegistered (a ++ "required" ++ b) :=
  ⟨rfl, (init_validation_failure {} none).2 rfl⟩

/-- C8: a synthesize invocation issues exactly one outbound request —
`synthesizeWith` applies its transport once, to `synthesizeRequest` —
and that request is a POST to the speech endpoint with the built body
as JSON, a bearer-credential authorization header, and a 30-second
timeout. -/
theorem synthesize_single_post_request (p : OpenAITTSProvider)
    (text : String) (o : TTSOptions) :
    (synthesizeRequest p text o).method = "POST" ∧
    (synthesizeRequest p text o).url =
      "https://api.openai.com/v1/audio/speech" ∧
    (synthesizeRequest p text o).authorization =
      "Bearer " ++ p.apiKey ∧
    (synthesizeRequest p text o).contentType =
      some "application/json" ∧
    (synthesizeRequest p text o).body = some (buildBody p text o) ∧
    (synthesizeRequest p text o).timeoutMs = some 30000 ∧
    ∀ transport, synthesizeWith transport p text o =
      synthesize p text o (transport (synthesizeRequest p text o)) :=
  ⟨rfl, rfl, rfl, rfl, rfl, rfl, fun _ => rfl⟩

/-- C9: decoding a successful response is total over every payload byte
length n, including zero and odd lengths: the call returns a result (no
error) whose durationMs is round(n / 48), and an empty payload gives
duration 0. -/
theorem synthesize_decode_total (p : OpenAITTSProvider) (text : String)
    (o : TTSOptions) (r : HttpResponse) (h : r.ok = true) :
    ∃ res, synthesize p text o (.ok r) = .ok res ∧
      res.durationMs = round ((r.payload.length : ℚ) / 48) ∧
      (r.payload.length = 0 → res.durationMs = 0) := by
  refine ⟨{ audio := r.payload, format := "pcm_s16le", sampleRate := 24000,
            durationMs := durationMsOf r.payload.length }, ?_, ?_, ?_⟩
  · simp [synthesize, h]
  · show durationMsOf r.payload.length = _
    simp only [durationMsOf]
    congr 1
    ring
  · intro h0
    simp only [h0]
    norm_num [durationMsOf, round_eq]

/-- Witness for C9 at an odd, 5-byte payload. -/
theorem synthesize_decode_total_witness :
    respOdd.ok = true ∧
    ∃ res, synthesize sampleProvider "hi" {} (.ok respOdd) = .ok res ∧
      res.durationMs = round ((respOdd.payload.length : ℚ) / 48) ∧
      (respOdd.payload.length = 0 → res.durationMs = 0) :=
  ⟨rfl, synthesize_decode_total sampleProvider "hi" {} respOdd rfl⟩

/-- C10: falsy per-call options are treated as absent: an empty-string
voice resolves to the stored default voice, a zero speed resolves to the
stored default speed, and an empty-string instructions option resolves
to the stored instructions, so the body built with an empty-string
instructions override equals the one built with the option omitted. -/
theorem synthesize_falsy_options_fall_back (p : OpenAITTSProvider)
    (text : String) (o : TTSOptions) :
    (o.voice = some "" → (buildBody p text o).voice = p.defaultVoice) ∧
    (o.speed = some 0 → (buildBody p text o).speed = p.speed) ∧
    (o.instructions = some "" →
      effectiveInstructions o.instructions p.instructions =
        p.instructions ∧
      (buildBody p text o).instructions =
        (buildBody p text { o with instructions := none }).instructions)
    := by
  refine ⟨fun hv => ?_, fun hs => ?_, fun hi => ⟨?_, ?_⟩⟩
  · simp [buildBody, jsOrString, hv]
  · simp [buildBody, jsOrRat, hs]
  · simp [effectiveInstructions, hi]
  · simp [buildBody, effectiveInstructions, hi]

/-- Witness for C10 at a provider with stored instructions and all-falsy
per-call options. -/
theorem synthesize_falsy_options_fall_back_witness :
    emptyInstrOptions.voice = some "" ∧
    emptyInstrOptions.speed = some 0 ∧
    emptyInstrOptions.instructions = some "" ∧
    (buildBody instrProvider "hi" emptyInstrOptions).voice =
      instrProvider.defaultVoice ∧
    (buildBody instrProvider "hi" emptyInstrOptions).speed =
      instrProvider.speed ∧
    effectiveInstructions emptyInstrOptions.instructions
      instrProvider.instructions = instrProvider.instructions :=
  ⟨rfl, rfl, rfl,
    (synthesize_falsy_options_fall_back instrProvider "hi"
      emptyInstrOptions).1 rfl,
    (synthesize_falsy_options_fall_back instrProvider "hi"
      emptyInstrOptions).2.1 rfl,
    ((synthesize_falsy_options_fall_back instrProvider "hi"
      emptyInstrOptions).2.2 rfl).1⟩

end WoprOpenAITTS
